import Mathlib

/-!
Verification of the mock-ophydWS log server (`log_server.py`).

The development shallowly embeds the server's mutable module-level state
(`deviceNamesList`, `deviceMessages`, the log file, and the single-slot
`finalize_timer`) as an explicit `ServerState`, and each Flask handler as a
pure function from a request body (a JSON value) and a state to a new state
and an HTTP response.  JSON values are modelled by the inductive `JValue`;
Python truthiness, `str.strip`, iteration, `in`, and subscripting are
modelled by `pyTruthy`, `pyStrip`, `pyIter`, `jContains` and `jGetItem`,
with Python runtime errors (`TypeError`/`AttributeError`) surfacing as
`Except` errors that the handlers' broad `except` clauses turn into
HTTP 500 responses.  The `threading.Timer` debounce machinery is modelled
by `SchedState`: every timer ever created is retained (Python timers keep
running even when the global variable stops referencing them), discrete
time stamps each creation, and `advance`/`runArms` give the firing
semantics of a trace of arm calls.
-/

/-- JSON values, as delivered by `request.get_json()`.  Objects are
insertion-ordered association lists, matching Python dicts; numbers are
modelled as integers (no claim involves fractional values). -/
inductive JValue where
  | null : JValue
  | bool : Bool → JValue
  | num : Int → JValue
  | str : String → JValue
  | arr : List JValue → JValue
  | obj : List (String × JValue) → JValue

/-- Hashable JSON values, usable as Python dict keys.  Lists and dicts are
unhashable (`TypeError`).  (Python's `True == 1` key collision is not
modelled; no claim involves boolean keys.) -/
inductive JKey where
  | null : JKey
  | bool : Bool → JKey
  | num : Int → JKey
  | str : String → JKey
deriving DecidableEq

/-- Conversion of a JSON value to a dict key; `none` models the
`TypeError: unhashable type` raised for lists and dicts. -/
def toKey : JValue → Option JKey
  | .null => some .null
  | .bool b => some (.bool b)
  | .num n => some (.num n)
  | .str s => some (.str s)
  | .arr _ => none
  | .obj _ => none

/-- Python truthiness of a JSON value (`if data:`). -/
def pyTruthy : JValue → Bool
  | .null => false
  | .bool b => b
  | .num n => n != 0
  | .str s => s != ""
  | .arr xs => !xs.isEmpty
  | .obj fs => !fs.isEmpty

/-- Whitespace characters stripped by Python's `str.strip()` (the ASCII
ones; non-ASCII Unicode spaces are not exercised by any claim). -/
def isPySpace (c : Char) : Bool :=
  c == ' ' || c == '\t' || c == '\n' || c == '\r' || c == '\x0b' || c == '\x0c'

/-- Python `str.strip()`: drop leading and trailing whitespace. -/
def pyStrip (s : String) : String :=
  String.mk ((((s.data.dropWhile isPySpace).reverse).dropWhile isPySpace).reverse)

/-- Dictionary lookup on an insertion-ordered association list (Python
dict keys are unique, so first match is the match). -/
def jLookup (key : String) : List (String × JValue) → Option JValue
  | [] => none
  | (k, v) :: rest => if k = key then some v else jLookup key rest

/-- Boolean prefix test on character lists. -/
def charListPrefix : List Char → List Char → Bool
  | [], _ => true
  | _ :: _, [] => false
  | c :: cs, d :: ds => c == d && charListPrefix cs ds

/-- Boolean substring test on character lists. -/
def charListSub : List Char → List Char → Bool
  | needle, [] => needle.isEmpty
  | needle, d :: ds => charListPrefix needle (d :: ds) || charListSub needle ds

/-- Python `key in x`: key membership for dicts, substring test for
strings, element membership for lists; `TypeError` otherwise. -/
def jContains (key : String) : JValue → Except String Bool
  | .obj fs => .ok (jLookup key fs).isSome
  | .str s => .ok (charListSub key.data s.data)
  | .arr xs => .ok (xs.any fun v => match v with | .str t => t == key | _ => false)
  | _ => .error "TypeError: argument is not iterable"

/-- Python `x[key]` for a string key: dict subscript (`KeyError` on a
missing key), `TypeError` on every non-dict value. -/
def jGetItem (key : String) : JValue → Except String JValue
  | .obj fs =>
    match jLookup key fs with
    | some v => .ok v
    | none => .error "KeyError"
  | _ => .error "TypeError: indices must be integers"

/-- Python iteration `for x in v`: lists yield elements, strings yield
one-character strings, dicts yield their keys; `TypeError` otherwise. -/
def pyIter : JValue → Except String (List JValue)
  | .arr xs => .ok xs
  | .str s => .ok (s.data.map fun c => .str (String.mk [c]))
  | .obj fs => .ok (fs.map fun p => .str p.1)
  | _ => .error "TypeError: object is not iterable"

/-- Embedding of `extract_device_name_from_message` (log_server.py:27-38):
try `pv`, then `obj`, then `update`→`pv`, then `update`→`obj`; `None`
(here `Option.none`) when nothing matches.  Python's duck-typed `in` and
subscripting can raise, hence the `Except` wrapper. -/
def extract_device_name_from_message (data : JValue) : Except String (Option JValue) :=
  match jContains "pv" data with
  | .error e => .error e
  | .ok true =>
    match jGetItem "pv" data with
    | .error e => .error e
    | .ok v => .ok (some v)
  | .ok false =>
    match jContains "obj" data with
    | .error e => .error e
    | .ok true =>
      match jGetItem "obj" data with
      | .error e => .error e
      | .ok v => .ok (some v)
    | .ok false =>
      match jContains "update" data with
      | .error e => .error e
      | .ok false => .ok none
      | .ok true =>
        match jGetItem "update" data with
        | .error e => .error e
        | .ok upd =>
          match jContains "pv" upd with
          | .error e => .error e
          | .ok true =>
            match jGetItem "pv" upd with
            | .error e => .error e
            | .ok v => .ok (some v)
          | .ok false =>
            match jContains "obj" upd with
            | .error e => .error e
            | .ok true =>
              match jGetItem "obj" upd with
              | .error e => .error e
              | .ok v => .ok (some v)
            | .ok false => .ok none

/-- Specification-side extraction rule, written from the spec's words
(section 4.1): fixed priority `pv`, `obj`, `update.pv`, `update.obj`,
first match wins, no identifier otherwise.  Compared against the code's
`extract_device_name_from_message` in the refinement theorem for C4. -/
def extractPriority (fs : List (String × JValue)) : Option JValue :=
  match jLookup "pv" fs with
  | some v => some v
  | none =>
    match jLookup "obj" fs with
    | some v => some v
    | none =>
      match jLookup "update" fs with
      | some (.obj gs) =>
        (match jLookup "pv" gs with
         | some v => some v
         | none => jLookup "obj" gs)
      | _ => none

/-- One stored message (the `message_obj` dict of log_server.py:117-122). -/
structure Message where
  timestamp : String
  sessionId : JValue
  data : JValue
  label : JValue

/-- One auto-finalized block appended to the log file by
`finalize_device_names_delayed` (the device-names section and the
device-messages section written in one `open`).  The exact text rendering
is abstracted to the structured content it serializes. -/
structure FinalizeBlock where
  timestamp : String
  names : List String
  messages : List (JKey × List Message)

/-- One `threading.Timer` object: its absolute deadline, and whether
`cancel()` was called or it already ran. -/
structure TimerRec where
  fireTime : Nat
  cancelled : Bool
  fired : Bool
deriving DecidableEq

/-- A timer is pending when it was neither cancelled nor has fired. -/
def isPending (tm : TimerRec) : Bool := !tm.cancelled && !tm.fired

/-- State of the timer machinery: `cur` is the timer currently referenced
by the global `finalize_timer` variable; `old` retains every timer it
previously referenced (a Python timer keeps running even after the global
variable is reassigned, so dropping them would hide double-fires). -/
structure SchedState where
  old : List TimerRec
  cur : Option TimerRec
deriving DecidableEq

/-- Scheduler state at process start: `finalize_timer = None`. -/
def schedInit : SchedState := ⟨[], none⟩

/-- Embedding of `finalize_timer.cancel()` guarded by `if finalize_timer:`
(log_server.py:149-150): mark the referenced timer cancelled, if any. -/
def cancelCur (s : SchedState) : SchedState :=
  { s with cur := s.cur.map fun tm => { tm with cancelled := true } }

/-- The `FINALIZE_DELAY` constant (log_server.py:10), in whole time
units. -/
def FINALIZE_DELAY : Nat := 3

/-- Embedding of `finalize_timer = threading.Timer(...)` followed by
`start()` (log_server.py:163-164) at time `t`: the previously referenced
timer is retired to `old` and a fresh pending timer with deadline
`t + FINALIZE_DELAY` becomes current. -/
def newTimer (t : Nat) (s : SchedState) : SchedState :=
  { old := s.old ++ s.cur.toList, cur := some ⟨t + FINALIZE_DELAY, false, false⟩ }

/-- The scheduler's `Arm` operation as performed by a successful
`/log_deviceNames` request at time `t`: cancel the pending timer, then
create and start a fresh one. -/
def arm (t : Nat) (s : SchedState) : SchedState := newTimer t (cancelCur s)

/-- Firing step for a single timer at time `t`: a pending timer whose
deadline has passed runs (records one fire at its deadline). -/
def fireTimer (t : Nat) (tm : TimerRec) : TimerRec × List Nat :=
  if isPending tm && decide (tm.fireTime ≤ t) then
    ({ tm with fired := true }, [tm.fireTime])
  else (tm, [])

/-- Let wall-clock time advance to `t`: every pending timer whose deadline
is at most `t` fires.  Returns the new state and the list of fires. -/
def advance (t : Nat) (s : SchedState) : SchedState × List Nat :=
  let old2 := s.old.map fun tm => (fireTimer t tm).1
  let oldFires := (s.old.map fun tm => (fireTimer t tm).2).flatten
  match s.cur with
  | none => (⟨old2, none⟩, oldFires)
  | some tm =>
    let p := fireTimer t tm
    (⟨old2, some p.1⟩, oldFires ++ p.2)

/-- Firing step with time advanced past every deadline (final
quiescence): every pending timer fires. -/
def fireAllTimer (tm : TimerRec) : TimerRec × List Nat :=
  if isPending tm then ({ tm with fired := true }, [tm.fireTime]) else (tm, [])

/-- Run a trace of `Arm` calls at the given (nondecreasing) times, then
let time run to quiescence.  Returns the final scheduler state and every
fire that occurred, in order. -/
def runArms : List Nat → SchedState → SchedState × List Nat
  | [], s =>
    let old2 := s.old.map fun tm => (fireAllTimer tm).1
    let oldFires := (s.old.map fun tm => (fireAllTimer tm).2).flatten
    (match s.cur with
     | none => (⟨old2, none⟩, oldFires)
     | some tm =>
       let p := fireAllTimer tm
       (⟨old2, some p.1⟩, oldFires ++ p.2))
  | t :: rest, s =>
    let p := advance t s
    let q := runArms rest (arm t p.1)
    (q.1, p.2 ++ q.2)

/-- Number of pending (armed, not yet fired) timers in a scheduler
state. -/
def pendingCount (s : SchedState) : Nat :=
  (s.old.filter isPending).length + (s.cur.toList.filter isPending).length

/-- Invariant maintained by the code's cancel-before-replace discipline:
every timer no longer referenced by the `finalize_timer` variable is
cancelled or has fired. -/
def goodSched (s : SchedState) : Prop :=
  ∀ tm ∈ s.old, isPending tm = false

instance (s : SchedState) : Decidable (goodSched s) := by
  unfold goodSched; infer_instance

/-- The server's global mutable state: the two module-level structures,
the log file (`none` when the file does not exist), and the timer slot. -/
structure ServerState where
  deviceNamesList : List String
  deviceMessages : List (JKey × List Message)
  logFile : Option (List FinalizeBlock)
  sched : SchedState

/-- State at process start: empty store, no log file, no timer. -/
def initState : ServerState := ⟨[], [], none, schedInit⟩

/-- An HTTP response: status code and JSON body. -/
structure Resp where
  status : Nat
  body : JValue

/-- JSON error body `jsonify({"error": msg})`. -/
def jErr (msg : String) : JValue := .obj [("error", .str msg)]

/-- Append a message under a device key, preserving dict insertion order:
a new key goes to the end, an existing key's list grows at its end
(log_server.py:124-126). -/
def addMessage (k : JKey) (m : Message) : List (JKey × List Message) → List (JKey × List Message)
  | [] => [(k, [m])]
  | (k2, ms) :: rest =>
    if k2 = k then (k2, ms ++ [m]) :: rest else (k2, ms) :: addMessage k m rest

/-- The batch loop of `write_deviceName_log` (log_server.py:154-157):
`if device_name and device_name.strip(): append(device_name.strip())`.
A truthy non-string raises `AttributeError` (`.strip` is missing); the
returned flag is `false` in that case and the returned list holds the
appends made before the raise (the global list mutation is not rolled
back by the handler's `except`). -/
def append_device_names : List JValue → List String → List String × Bool
  | [], acc => (acc, true)
  | e :: rest, acc =>
    if pyTruthy e then
      match e with
      | .str t =>
        if pyStrip t != "" then append_device_names rest (acc ++ [pyStrip t])
        else append_device_names rest acc
      | _ => (acc, false)
    else append_device_names rest acc

/-- The surviving entries of a batch of strings: each trimmed, the ones
empty after trimming discarded, order preserved. -/
def trimmedSurvivors (bs : List String) : List String :=
  (bs.map pyStrip).filter fun x => x != ""

/-- Embedding of the `POST /log` handler `write_log`
(log_server.py:90-136) at timestamp `now`.  Note the file write
(log_server.py:129-130) is commented out in the source, so the log file
is never touched here. -/
def write_log (now : String) (body : JValue) (s : ServerState) : ServerState × Resp :=
  if pyTruthy body = false then (s, ⟨400, jErr "No data provided"⟩)
  else
    match body with
    | .obj fields =>
      let payload := (jLookup "data" fields).getD (.obj [])
      match extract_device_name_from_message payload with
      | .error e => (s, ⟨500, jErr e⟩)
      | .ok deviceName =>
        let msg : Message :=
          ⟨now, (jLookup "sessionId" fields).getD (.str "unknown"),
            payload, (jLookup "label" fields).getD (.str "UNKNOWN")⟩
        let stored : Option ServerState :=
          match deviceName with
          | some v =>
            if pyTruthy v then
              match toKey v with
              | some k => some { s with deviceMessages := addMessage k msg s.deviceMessages }
              | none => none
            else some s
          | none => some s
        match stored with
        | some s2 =>
          (s2, ⟨200, .obj [("status", .str "success"),
                            ("message", .str "Log written successfully")]⟩)
        | none => (s, ⟨500, jErr "TypeError: unhashable type"⟩)
    | _ => (s, ⟨500, jErr "AttributeError: no attribute get"⟩)

/-- Embedding of the `POST /log_deviceNames` handler `write_deviceName_log`
(log_server.py:138-170) at scheduler time `now`.  The empty-body check
precedes the timer cancel; the cancel precedes everything that can raise,
so a failing request leaves the timer cancelled and not rearmed. -/
def write_deviceName_log (now : Nat) (body : JValue) (s : ServerState) : ServerState × Resp :=
  if pyTruthy body = false then (s, ⟨400, jErr "No data provided"⟩)
  else
    let sched1 := cancelCur s.sched
    match body with
    | .obj fields =>
      match pyIter ((jLookup "data" fields).getD (.arr [])) with
      | .error e => ({ s with sched := sched1 }, ⟨500, jErr e⟩)
      | .ok elems =>
        let r := append_device_names elems s.deviceNamesList
        if r.2 then
          ({ s with deviceNamesList := r.1, sched := newTimer now sched1 },
           ⟨200, .obj [("status", .str "success"),
                        ("message", .str "Batch logged successfully"),
                        ("deviceNamesCount", .num r.1.length)]⟩)
        else
          ({ s with deviceNamesList := r.1, sched := sched1 },
           ⟨500, jErr "AttributeError: no attribute strip"⟩)
    | _ => ({ s with sched := sched1 }, ⟨500, jErr "AttributeError: no attribute get"⟩)

/-- Embedding of `finalize_device_names_delayed` (log_server.py:40-87) at
timestamp `now`: no-op when the device-name list is empty; otherwise the
current snapshot of both structures is appended to the log file (created
by `open(..., mode a)` when absent).  `writeOk = false` models a failing
durable write (the timer thread's exception): the in-memory store is
untouched either way. -/
def finalize_device_names_delayed (now : String) (writeOk : Bool) (s : ServerState) : ServerState :=
  if s.deviceNamesList.length = 0 then s
  else if writeOk then
    let blocks := (s.logFile.getD []) ++ [⟨now, s.deviceNamesList, s.deviceMessages⟩]
    { s with logFile := some blocks }
  else s

/-- Embedding of the `DELETE /logs` handler `clear_logs`
(log_server.py:184-196): remove the log file (if present) and clear both
in-memory structures.  The timer slot is untouched. -/
def clear_logs (s : ServerState) : ServerState × Resp :=
  ({ s with logFile := none, deviceNamesList := [], deviceMessages := [] },
   ⟨200, .obj [("status", .str "success"),
                ("message", .str "Logs cleared, deviceNamesList and deviceMessages reset")]⟩)

/-! ## Helper lemmas -/

/-- A list of non-pending timers filters to nothing. -/
theorem filter_pending_nil (l : List TimerRec) (h : ∀ tm ∈ l, isPending tm = false) :
    l.filter isPending = [] := by
  induction l with
  | nil => rfl
  | cons a t ih =>
    rw [List.filter_cons_of_neg (by simp [h a (List.mem_cons_self a t)])]
    exact ih fun x hx => h x (List.mem_cons_of_mem a hx)

/-- Letting time pass never turns a dead timer back into a pending one. -/
theorem fireTimer_nonpending (t : Nat) (tm : TimerRec) (h : isPending tm = false) :
    isPending (fireTimer t tm).1 = false := by
  simp [fireTimer, h]

/-- Arming keeps the retired-timer invariant: everything outside the
current slot stays cancelled-or-fired. -/
theorem goodSched_arm (t : Nat) (s : SchedState) (hs : goodSched s) :
    goodSched (arm t s) := by
  intro tm htm
  simp only [arm, newTimer, cancelCur, List.mem_append] at htm
  rcases htm with htm | htm
  · exact hs tm htm
  · rcases hcur : s.cur with _ | x
    · rw [hcur] at htm
      exact absurd htm (List.not_mem_nil tm)
    · rw [hcur] at htm
      have h2 : tm = { fireTime := x.fireTime, cancelled := true, fired := x.fired } :=
        List.mem_singleton.mp htm
      subst h2
      rfl

/-- Time passage keeps the retired-timer invariant. -/
theorem goodSched_advance (t : Nat) (s : SchedState) (hs : goodSched s) :
    goodSched (advance t s).1 := by
  have hold : ∀ tm ∈ s.old.map (fun tm => (fireTimer t tm).1), isPending tm = false := by
    intro tm htm
    simp only [List.mem_map] at htm
    obtain ⟨x, hx, rfl⟩ := htm
    exact fireTimer_nonpending t x (hs x hx)
  intro tm htm
  rcases hcur : s.cur with _ | x <;>
    · rw [advance, hcur] at htm
      exact hold tm htm

/-- On the success path, `write_deviceName_log` at time `now` performs
exactly the scheduler's `Arm` operation on the timer slot. -/
theorem write_deviceName_log_success_sched (now : Nat) (body : JValue) (s : ServerState)
    (h : (write_deviceName_log now body s).2.status = 200) :
    (write_deviceName_log now body s).1.sched = arm now s.sched := by
  by_cases hb : pyTruthy body = false
  · simp [write_deviceName_log, hb] at h
  · cases body with
    | obj fields =>
      cases hit : pyIter ((jLookup "data" fields).getD (JValue.arr [])) with
      | error e => simp [write_deviceName_log, hb, hit] at h
      | ok elems =>
        cases hr : (append_device_names elems s.deviceNamesList).2 with
        | false => simp [write_deviceName_log, hb, hit, hr] at h
        | true => simp [write_deviceName_log, hb, hit, hr, arm]
    | null => simp [write_deviceName_log, hb] at h
    | bool b => simp [write_deviceName_log, hb] at h
    | num n => simp [write_deviceName_log, hb] at h
    | str t => simp [write_deviceName_log, hb] at h
    | arr xs => simp [write_deviceName_log, hb] at h

/-- The batch loop on a batch of strings: every entry is trimmed, the
empty-after-trim ones are dropped, the survivors are appended in order,
and no error is raised. -/
theorem append_device_names_strings (bs : List String) (acc : List String) :
    append_device_names (bs.map JValue.str) acc = (acc ++ trimmedSurvivors bs, true) := by
  induction bs generalizing acc with
  | nil => simp [append_device_names, trimmedSurvivors]
  | cons b rest ih =>
    by_cases hb : b = ""
    · subst hb
      have h0 : pyStrip "" = "" := rfl
      simp [append_device_names, pyTruthy, trimmedSurvivors, h0, List.filter_cons] at ih ⊢
      exact ih acc
    · by_cases h2 : pyStrip b = ""
      · simp [append_device_names, pyTruthy, trimmedSurvivors, List.filter_cons, hb, h2] at ih ⊢
        exact ih acc
      · simp [append_device_names, pyTruthy, trimmedSurvivors, List.filter_cons, hb, h2] at ih ⊢
        rw [ih (acc ++ [pyStrip b])]
        simp [trimmedSurvivors]
    
/-- The batch loop only ever appends: whatever happens (including a raise
midway), the prior list is a prefix of the resulting list. -/
theorem append_device_names_extends (batch : List JValue) (acc : List String) :
    ∃ tail, (append_device_names batch acc).1 = acc ++ tail := by
  induction batch generalizing acc with
  | nil => exact ⟨[], by simp [append_device_names]⟩
  | cons e rest ih =>
    by_cases he : pyTruthy e
    · cases e with
      | str t =>
        by_cases h2 : pyStrip t = ""
        · simp only [append_device_names, he, if_true, h2]
          simpa [h2] using ih acc
        · simp only [append_device_names, he, if_true]
          rw [if_pos (by simp [h2])]
          obtain ⟨tail, htail⟩ := ih (acc ++ [pyStrip t])
          exact ⟨pyStrip t :: tail, by simp [htail]⟩
      | null => exact ⟨[], by simp [append_device_names, he]⟩
      | bool b => exact ⟨[], by simp [append_device_names, he]⟩
      | num n => exact ⟨[], by simp [append_device_names, he]⟩
      | arr xs => exact ⟨[], by simp [append_device_names, he]⟩
      | obj fs => exact ⟨[], by simp [append_device_names, he]⟩
    · simp only [append_device_names, he, if_false]
      simpa [he] using ih acc

/-- On a batch whose entries are each a string or falsy, the loop never
raises. -/
theorem append_device_names_all_ok (batch : List JValue)
    (h : ∀ e ∈ batch, (∃ t, e = JValue.str t) ∨ pyTruthy e = false) (acc : List String) :
    (append_device_names batch acc).2 = true := by
  induction batch generalizing acc with
  | nil => rfl
  | cons e rest ih =>
    have hrest : ∀ x ∈ rest, (∃ t, x = JValue.str t) ∨ pyTruthy x = false :=
      fun x hx => h x (List.mem_cons_of_mem e hx)
    rcases h e (List.mem_cons_self e rest) with ⟨t, rfl⟩ | hf
    · by_cases ht : pyTruthy (JValue.str t)
      · by_cases h2 : pyStrip t = ""
        · simp only [append_device_names, ht, if_true, h2]
          simpa [h2] using ih hrest acc
        · simp only [append_device_names, ht, if_true]
          rw [if_pos (by simp [h2])]
          exact ih hrest (acc ++ [pyStrip t])
      · simp only [append_device_names, ht, if_false]
        exact ih hrest acc
    · simp only [append_device_names, hf]
      rw [if_neg (by simp [hf])]
      exact ih hrest acc

/-! ## Claim theorems -/

/-- C2, counterexample: a successful `POST /log` request does not append
the raw event to the log file.  From the initial state, the request below
returns 200 (and even stores the message under device `A`), yet the log
file still does not exist: the handler's file write is commented out in
the source (log_server.py:129-130). -/
theorem c2_log_write_counterexample :
    (write_log "T" (JValue.obj [("label", JValue.str "L"), ("sessionId", JValue.str "S"),
        ("data", JValue.obj [("pv", JValue.str "A")])]) initState).2.status = 200
    ∧ (write_log "T" (JValue.obj [("label", JValue.str "L"), ("sessionId", JValue.str "S"),
        ("data", JValue.obj [("pv", JValue.str "A")])]) initState).1.logFile = none :=
  ⟨rfl, rfl⟩

/-- C2, amended: for every `POST /log` request the raw event is formatted
but never appended to the log file (the write at log_server.py:129-130 is
disabled); the handler leaves the log file, the device-name list and the
timer slot untouched, and responds with success (200) or failure
(400/500). -/
theorem c2_log_write_amended (now : String) (body : JValue) (s : ServerState) :
    (write_log now body s).1.logFile = s.logFile
    ∧ (write_log now body s).1.deviceNamesList = s.deviceNamesList
    ∧ (write_log now body s).1.sched = s.sched
    ∧ ((write_log now body s).2.status = 200 ∨ (write_log now body s).2.status = 400
        ∨ (write_log now body s).2.status = 500) := by
  by_cases hb : pyTruthy body = false
  · simp [write_log, hb]
  · cases body with
    | obj fields =>
      cases hx : extract_device_name_from_message ((jLookup "data" fields).getD (JValue.obj [])) with
      | error e => simp [write_log, hb, hx]
      | ok dn =>
        cases dn with
        | none => simp [write_log, hb, hx]
        | some v =>
          by_cases hv : pyTruthy v
          · cases hk : toKey v with
            | none => simp [write_log, hb, hx, hv, hk]
            | some k => simp [write_log, hb, hx, hv, hk]
          · simp [write_log, hb, hx, hv]
    | null => simp [write_log, hb]
    | bool b => simp [write_log, hb]
    | num n => simp [write_log, hb]
    | str t => simp [write_log, hb]
    | arr xs => simp [write_log, hb]

/-- C3: a `POST /log_deviceNames` batch of strings trims each entry,
discards the entries that are empty after trimming, appends the surviving
trimmed entries to the device-name list in order, and returns 200 with a
`deviceNamesCount` equal to the prior length plus the number of
non-empty-after-trim entries. -/
theorem c3_append_device_names_contract (now : Nat) (bs : List String) (s : ServerState) :
    (write_deviceName_log now (JValue.obj [("data", JValue.arr (bs.map JValue.str))]) s).1.deviceNamesList
      = s.deviceNamesList ++ trimmedSurvivors bs
    ∧ (write_deviceName_log now (JValue.obj [("data", JValue.arr (bs.map JValue.str))]) s).2.status = 200
    ∧ (write_deviceName_log now (JValue.obj [("data", JValue.arr (bs.map JValue.str))]) s).2.body
      = JValue.obj [("status", JValue.str "success"),
          ("message", JValue.str "Batch logged successfully"),
          ("deviceNamesCount", JValue.num (s.deviceNamesList.length + (trimmedSurvivors bs).length))] := by
  have hit : pyIter ((jLookup "data" [("data", JValue.arr (bs.map JValue.str))]).getD (JValue.arr []))
      = Except.ok (bs.map JValue.str) := by
    simp [jLookup, pyIter]
  have hl := append_device_names_strings bs s.deviceNamesList
  refine ⟨?_, ?_, ?_⟩ <;>
    simp [write_deviceName_log, pyTruthy, hit, hl]

/-- C5, counterexample: a batch holding a truthy non-string entry is not
silently dropped: `["foo", 5]` makes the request fail with 500
(`AttributeError` on `5.strip()`), and the entry processed before the
failure is already appended, so a partial mutation of the device-name
list is observable. -/
theorem c5_malformed_counterexample :
    (write_deviceName_log 0 (JValue.obj [("data", JValue.arr [JValue.str "foo", JValue.num 5])])
        initState).2.status = 500
    ∧ (write_deviceName_log 0 (JValue.obj [("data", JValue.arr [JValue.str "foo", JValue.num 5])])
        initState).1.deviceNamesList = ["foo"] :=
  ⟨rfl, rfl⟩

/-- C5, amended: falsy entries (and whitespace-only strings) are silently
dropped and a batch whose entries are all strings or falsy values never
fails; but a truthy non-string entry raises, the request fails, and the
loop only ever appends, so the entries appended before the raise remain
in the device-name list (the partial mutation is observable). -/
theorem c5_malformed_amended :
    (∀ (now : Nat) (s : ServerState) (batch : List JValue),
        (∀ e ∈ batch, (∃ t, e = JValue.str t) ∨ pyTruthy e = false) →
        (write_deviceName_log now (JValue.obj [("data", JValue.arr batch)]) s).2.status = 200)
    ∧ (∀ (batch : List JValue) (acc : List String),
        ∃ tail, (append_device_names batch acc).1 = acc ++ tail) := by
  constructor
  · intro now s batch h
    have hit : pyIter ((jLookup "data" [("data", JValue.arr batch)]).getD (JValue.arr []))
        = Except.ok batch := by
      simp [jLookup, pyIter]
    have hok := append_device_names_all_ok batch h s.deviceNamesList
    simp [write_deviceName_log, pyTruthy, hit, hok]
  · exact append_device_names_extends

/-- C5, witness for the amended claim at a concrete batch. -/
theorem c5_malformed_witness :
    (write_deviceName_log 0 (JValue.obj [("data", JValue.arr [JValue.str "foo", JValue.null])])
        initState).2.status = 200 :=
  c5_malformed_amended.1 0 initState [JValue.str "foo", JValue.null] (by
    intro e he
    rcases List.mem_cons.mp he with rfl | he2
    · exact Or.inl ⟨"foo", rfl⟩
    · rcases List.mem_singleton.mp he2 with rfl
      exact Or.inr rfl)

/-- C6: when the finalize action runs with an empty device-name list
(for instance after a `DELETE /logs` reset raced the timer), it is a
complete no-op: the state, including the log file, is unchanged. -/
theorem c6_finalize_empty_noop (now : String) (writeOk : Bool) (s : ServerState)
    (h : s.deviceNamesList = []) :
    finalize_device_names_delayed now writeOk s = s := by
  simp [finalize_device_names_delayed, h]

/-- C6, witness: the finalizer is a no-op on the initial (empty) state. -/
theorem c6_finalize_empty_witness :
    finalize_device_names_delayed "T" true initState = initState :=
  c6_finalize_empty_noop "T" true initState rfl

/-- C7: every run of the finalizer — with the durable write succeeding or
not — leaves the live store untouched: the device-name list, the
device-message index and the timer slot are exactly what they were at
fire time.  Only `clear_logs` clears them. -/
theorem c7_finalize_frame (now : String) (writeOk : Bool) (s : ServerState) :
    (finalize_device_names_delayed now writeOk s).deviceNamesList = s.deviceNamesList
    ∧ (finalize_device_names_delayed now writeOk s).deviceMessages = s.deviceMessages
    ∧ (finalize_device_names_delayed now writeOk s).sched = s.sched := by
  unfold finalize_device_names_delayed
  split
  · exact ⟨rfl, rfl, rfl⟩
  · split
    · exact ⟨rfl, rfl, rfl⟩
    · exact ⟨rfl, rfl, rfl⟩

/-- C9: `DELETE /logs` is idempotent — clearing twice in a row yields the
same state as clearing once, and after either the device-name list and
the device-message index are empty and the log file is absent. -/
theorem c9_reset_idempotent (s : ServerState) :
    (clear_logs (clear_logs s).1).1 = (clear_logs s).1
    ∧ (clear_logs s).1.deviceNamesList = []
    ∧ (clear_logs s).1.deviceMessages = []
    ∧ (clear_logs s).1.logFile = none :=
  ⟨rfl, rfl, rfl, rfl⟩

/-- C10: the aggregation gate `if device_name:` tests truthiness, not
presence.  Whenever extraction yields no identifier (for instance a body
with no `data` field, whose payload defaults to the empty dict) or yields
a falsy identifier (for instance payload `pv` mapped to the empty
string), the state — in particular the device-message index — is left
completely unchanged and the request still returns success. -/
theorem c10_truthiness_gate (now : String) (s : ServerState) (fields : List (String × JValue))
    (hne : pyTruthy (JValue.obj fields) = true)
    (hx : extract_device_name_from_message ((jLookup "data" fields).getD (JValue.obj []))
            = Except.ok none
        ∨ ∃ v, extract_device_name_from_message ((jLookup "data" fields).getD (JValue.obj []))
            = Except.ok (some v) ∧ pyTruthy v = false) :
    (write_log now (JValue.obj fields) s).1 = s
    ∧ (write_log now (JValue.obj fields) s).2.status = 200 := by
  have hb : ¬ (pyTruthy (JValue.obj fields) = false) := by simp [hne]
  rcases hx with hx | ⟨v, hx, hv⟩
  · constructor <;> simp [write_log, hb, hx]
  · constructor <;> simp [write_log, hb, hx, hv]

/-- C10, witness: payload `pv` mapped to the empty string, and a body with
no `data` field at all; both leave the store unchanged and return 200. -/
theorem c10_truthiness_witness :
    ((write_log "T" (JValue.obj [("data", JValue.obj [("pv", JValue.str "")])]) initState).1
        = initState
      ∧ (write_log "T" (JValue.obj [("data", JValue.obj [("pv", JValue.str "")])]) initState).2.status
        = 200)
    ∧ ((write_log "T" (JValue.obj [("label", JValue.str "x")]) initState).1 = initState
      ∧ (write_log "T" (JValue.obj [("label", JValue.str "x")]) initState).2.status = 200) :=
  ⟨c10_truthiness_gate "T" initState [("data", JValue.obj [("pv", JValue.str "")])] rfl
      (Or.inr ⟨JValue.str "", rfl, rfl⟩),
    c10_truthiness_gate "T" initState [("label", JValue.str "x")] rfl (Or.inl rfl)⟩

/-- C4: on a payload object whose `update` field (when present) holds an
object, the code's extraction agrees with the spec's fixed-priority rule
(`pv`, then `obj`, then `update.pv`, then `update.obj`, else no
identifier); in particular `pv` beats `obj`: `{pv: A, obj: B}` yields
`A`. -/
theorem c4_extraction_priority :
    (∀ fs : List (String × JValue),
        (∀ v, jLookup "update" fs = some v → ∃ gs, v = JValue.obj gs) →
        extract_device_name_from_message (JValue.obj fs) = Except.ok (extractPriority fs))
    ∧ extract_device_name_from_message
        (JValue.obj [("pv", JValue.str "A"), ("obj", JValue.str "B")])
      = Except.ok (some (JValue.str "A")) := by
  constructor
  · intro fs hupd
    cases hpv : jLookup "pv" fs with
    | some v =>
      simp [extract_device_name_from_message, extractPriority, jContains, jGetItem, hpv]
    | none =>
      cases hobj : jLookup "obj" fs with
      | some v =>
        simp [extract_device_name_from_message, extractPriority, jContains, jGetItem, hpv, hobj]
      | none =>
        cases hup : jLookup "update" fs with
        | none =>
          simp [extract_device_name_from_message, extractPriority, jContains, jGetItem,
            hpv, hobj, hup]
        | some u =>
          obtain ⟨gs, rfl⟩ := hupd u hup
          cases hp2 : jLookup "pv" gs with
          | some v =>
            simp [extract_device_name_from_message, extractPriority, jContains, jGetItem,
              hpv, hobj, hup, hp2]
          | none =>
            cases ho2 : jLookup "obj" gs with
            | some v =>
              simp [extract_device_name_from_message, extractPriority, jContains, jGetItem,
                hpv, hobj, hup, hp2, ho2]
            | none =>
              simp [extract_device_name_from_message, extractPriority, jContains, jGetItem,
                hpv, hobj, hup, hp2, ho2]
  · rfl

/-- C4, witness: the refinement instantiated on a payload where only the
nested `update.obj` rule matches. -/
theorem c4_extraction_witness :
    extract_device_name_from_message
        (JValue.obj [("update", JValue.obj [("obj", JValue.str "B")])])
      = Except.ok (extractPriority [("update", JValue.obj [("obj", JValue.str "B")])]) :=
  c4_extraction_priority.1 [("update", JValue.obj [("obj", JValue.str "B")])] (by
    intro v hv
    exact ⟨[("obj", JValue.str "B")], (Option.some.inj hv).symm⟩)

/-- C8, counterexample: a `POST /log_deviceNames` batch whose single entry
is whitespace-only succeeds, appends nothing, and still arms the timer —
so the pending finalize action exists while the device-name list is
empty, contradicting the claimed invariant. -/
theorem c8_armed_empty_counterexample :
    (write_deviceName_log 0 (JValue.obj [("data", JValue.arr [JValue.str " "])])
        initState).1.deviceNamesList = []
    ∧ pendingCount (write_deviceName_log 0 (JValue.obj [("data", JValue.arr [JValue.str " "])])
        initState).1.sched = 1
    ∧ (write_deviceName_log 0 (JValue.obj [("data", JValue.arr [JValue.str " "])])
        initState).2.status = 200 :=
  ⟨rfl, rfl, rfl⟩

/-- C8, amended: every successful `POST /log_deviceNames` request arms the
timer unconditionally — the current slot holds a fresh pending timer with
deadline `now + FINALIZE_DELAY` whether or not the device-name list is
empty — so the timer can be pending with an empty list (the whitespace
batch below); the harm is bounded because a fire with an empty list is a
no-op. -/
theorem c8_armed_empty_amended :
    (∀ (now : Nat) (body : JValue) (s : ServerState),
        (write_deviceName_log now body s).2.status = 200 →
        (write_deviceName_log now body s).1.sched.cur
          = some ⟨now + FINALIZE_DELAY, false, false⟩)
    ∧ ((write_deviceName_log 0 (JValue.obj [("data", JValue.arr [JValue.str " "])])
          initState).1.deviceNamesList = []
        ∧ pendingCount (write_deviceName_log 0
            (JValue.obj [("data", JValue.arr [JValue.str " "])]) initState).1.sched = 1) := by
  constructor
  · intro now body s h
    rw [write_deviceName_log_success_sched now body s h]
    rfl
  · exact ⟨rfl, rfl⟩

/-- C8, witness for the amended claim: the whitespace-only batch from the
initial state returns 200 and the slot holds the fresh pending timer. -/
theorem c8_armed_empty_witness :
    (write_deviceName_log 0 (JValue.obj [("data", JValue.arr [JValue.str " "])])
        initState).1.sched.cur = some ⟨0 + FINALIZE_DELAY, false, false⟩ :=
  c8_armed_empty_amended.1 0 (JValue.obj [("data", JValue.arr [JValue.str " "])]) initState rfl

/-- C1: the debounce contract.  `Arm` (what every `/log_deviceNames`
batch performs on the timer slot, last conjunct) cancels any pending
timer before creating the new one, so the retired-timer invariant is
preserved by arming and by time passage and at most one finalize action
is pending at any time; and a trace of two `Arm` calls less than
`FINALIZE_DELAY` apart, run to quiescence, produces exactly one fire,
`FINALIZE_DELAY` after the second call. -/
theorem c1_debounce_single_slot :
    (∀ (t : Nat) (s : SchedState), goodSched s →
        goodSched (arm t s) ∧ pendingCount (arm t s) ≤ 1)
    ∧ (∀ (t : Nat) (s : SchedState), goodSched s →
        goodSched (advance t s).1 ∧ pendingCount (advance t s).1 ≤ 1)
    ∧ (∀ t1 t2 : Nat, t1 ≤ t2 → t2 < t1 + FINALIZE_DELAY →
        (runArms [t1, t2] schedInit).2 = [t2 + FINALIZE_DELAY])
    ∧ (∀ (now : Nat) (body : JValue) (s : ServerState),
        (write_deviceName_log now body s).2.status = 200 →
        (write_deviceName_log now body s).1.sched = arm now s.sched) := by
  refine ⟨fun t s hs => ⟨goodSched_arm t s hs, ?_⟩,
    fun t s hs => ⟨goodSched_advance t s hs, ?_⟩, ?_, write_deviceName_log_success_sched⟩
  · unfold pendingCount
    rw [filter_pending_nil _ (goodSched_arm t s hs)]
    simp [arm, newTimer, isPending]
  · unfold pendingCount
    rw [filter_pending_nil _ (goodSched_advance t s hs)]
    cases hcur : s.cur with
    | none => simp [advance, hcur]
    | some x =>
      simp only [advance, hcur, List.length_nil, Nat.zero_add]
      calc (((fireTimer t x).1 :: []).filter isPending).length
          ≤ ((fireTimer t x).1 :: []).length := List.length_filter_le _ _
        _ = 1 := rfl
  · intro t1 t2 h12 hlt
    have hd : decide (t1 + FINALIZE_DELAY ≤ t2) = false :=
      decide_eq_false (Nat.not_le.mpr hlt)
    simp [runArms, advance, arm, cancelCur, newTimer, schedInit, fireTimer, fireAllTimer,
      isPending, hd]

/-- C1, witness: the invariant holds after arming the idle scheduler, and
the concrete trace of arms at times 0 and 2 fires exactly once, at
`2 + FINALIZE_DELAY`. -/
theorem c1_debounce_witness :
    (goodSched (arm 0 schedInit) ∧ pendingCount (arm 0 schedInit) ≤ 1)
    ∧ (runArms [0, 2] schedInit).2 = [2 + FINALIZE_DELAY] :=
  ⟨c1_debounce_single_slot.1 0 schedInit (by decide),
    c1_debounce_single_slot.2.2.1 0 2 (by decide) (by decide)⟩
